import Mathlib

/-!
# Target & Scoring Engine of the Geo Globe Game — verification development

A shallow embedding of the scoring/target-resolution engine of
`src/components/GeoGlobeGame.js`:

* `dailySeed` / `resolveDailyTarget` — the daily target useEffect
  (`seed = year*373 + month*37 + day*7`, `countryIndex = seed % countryData.length`);
* `calculateCentroid` — the polygon / multi-polygon centroid, embedded over a
  dynamic JavaScript-value type `JVal` so that the runtime duck-typing
  (`coordinates[0][0][0] && typeof coordinates[0][0][0] === number`), the
  `undefined`/`NaN` arithmetic, and the surrounding `try`/`catch` are modelled
  faithfully;
* `calculateDistance` — the haversine formula over the reals;
* `getColorByDistance` — the distance → colour tier mapping, over an
  IEEE-style number type `JSNum` that carries `NaN` and the two infinities
  with JavaScript comparison semantics;
* `handleGuess` — the submission handler, restricted to the state it reads
  and writes (guess history, current input, target, game flags); toast
  notifications, statistics and localStorage are presentation concerns that
  touch no engine state and are elided.

Finite JavaScript numbers in the geometry pipeline are modelled as rationals
(`ℚ`): geometry coordinates are decimal literals and every operation the
centroid performs on them is exact field arithmetic.  The trigonometric
scorer is modelled over `ℝ`.
-/

/-! ## Dynamic JavaScript values (geometry pipeline)

`JVal` covers the values that flow through `calculateCentroid`: finite
numbers (as `ℚ`), `NaN`, the infinities, `undefined`, and arrays.  Strings
and objects never arise in the geometry pipeline and are outside the
modelled domain.  A JavaScript exception (`TypeError` from indexing
`undefined` or calling an array method on a non-array) is modelled as
`Option.none`, which the `try`/`catch` in `calculateCentroid` absorbs. -/
inductive JVal where
  | num (x : ℚ)
  | nan
  | inf
  | ninf
  | undefined
  | arr (elems : List JVal)
deriving Repr

/-- JavaScript truthiness: `0`, `NaN` and `undefined` are falsy; every
array (even `[]`) and every other number is truthy. -/
def JVal.truthy : JVal → Bool
  | .num x => x != 0
  | .nan => false
  | .inf => true
  | .ninf => true
  | .undefined => false
  | .arr _ => true

/-- The typeof test `typeof v === number`: `NaN` and the infinities are numbers. -/
def JVal.isNumber : JVal → Bool
  | .num _ => true
  | .nan => true
  | .inf => true
  | .ninf => true
  | _ => false

/-- JavaScript member access `v[i]` for a natural index: arrays yield the
element (or `undefined` out of range), numbers have no such property and
yield `undefined`, and indexing `undefined` throws a `TypeError` (`none`). -/
def JVal.index : JVal → Nat → Option JVal
  | .arr xs, i => some (xs.getD i .undefined)
  | .undefined, _ => none
  | _, _ => some .undefined

/-- The `.length` property read: arrays give their length, numbers give
`undefined`, and reading a property of `undefined` throws (`none`). -/
def JVal.lengthProp : JVal → Option JVal
  | .arr xs => some (.num xs.length)
  | .undefined => none
  | _ => some .undefined

/-- Array-method receiver check: `.map`/`.reduce` exist only on arrays;
calling them on anything else throws a `TypeError` (`none`). -/
def JVal.elems : JVal → Option (List JVal)
  | .arr xs => some xs
  | _ => none

/-- JavaScript `+` restricted to the values of the geometry pipeline: two
finite numbers add exactly; `NaN`, `undefined` or an infinity/opposite
infinity poison the result to `NaN` (`x + undefined` is `NaN`).  Array
operands (string concatenation in JavaScript) are outside the modelled
domain and are mapped to `nan`; no path exercised below adds an array. -/
def JVal.add : JVal → JVal → JVal
  | .num x, .num y => .num (x + y)
  | .num _, .inf => .inf
  | .inf, .num _ => .inf
  | .inf, .inf => .inf
  | .num _, .ninf => .ninf
  | .ninf, .num _ => .ninf
  | .ninf, .ninf => .ninf
  | _, _ => .nan

/-- JavaScript `/` on the same domain: exact division for a nonzero finite
divisor, `0/0` is `NaN`, `x/0` is a signed infinity, and any `NaN` or
`undefined` operand gives `NaN`.  Array operands are outside the modelled
domain (mapped to `nan`). -/
def JVal.div : JVal → JVal → JVal
  | .num x, .num y =>
      if y = 0 then (if x = 0 then .nan else if 0 < x then .inf else .ninf)
      else .num (x / y)
  | .inf, .num y => if 0 ≤ y then .inf else .ninf
  | .ninf, .num y => if 0 ≤ y then .ninf else .inf
  | .num _, .inf => .num 0
  | .num _, .ninf => .num 0
  | _, _ => .nan

/-- JavaScript `>`: numeric comparison; any comparison involving `NaN` or
`undefined` is `false`.  Only number/`undefined` operands reach this in the
centroid (the operands are `.length` reads). -/
def JVal.gt : JVal → JVal → Bool
  | .num x, .num y => decide (y < x)
  | .inf, .num _ => true
  | .num _, .ninf => true
  | .inf, .ninf => true
  | _, _ => false

/-- JavaScript strict equality `===` on the values reaching the
`coordinates.length === 0` test: numbers compare by value, `NaN` compares
unequal to everything, `undefined === 0` is `false`.  Distinct array
objects compare unequal (`===` is reference equality on objects; the only
use below compares a `.length` read with the literal `0`). -/
def JVal.strictEq : JVal → JVal → Bool
  | .num x, .num y => x == y
  | .inf, .inf => true
  | .ninf, .ninf => true
  | .undefined, .undefined => true
  | _, _ => false

/-! ## The centroid calculator (`calculateCentroid`) -/

/-- The fold `points.reduce((sum, point) => sum + point[k], 0)`: the two
accumulating folds inside `calculateCentroid` (`k = 1` for latitude,
`k = 0` for longitude).  `point[k]` can throw when `point` is
`undefined`. -/
def sumStep (k : Nat) (sum point : JVal) : Option JVal := do
  let c ← point.index k
  pure (sum.add c)

def sumAt (points : List JVal) (k : Nat) : Option JVal :=
  points.foldlM (sumStep k) (JVal.num 0)

/-- The fold `polygons.reduce((largest, current) =>
      current.length > largest.length ? current : largest, polygons[0])`
— note the initial value is `polygons[0]` and the fold still visits every
element, so ties keep the earlier ring. -/
def largestStep (largest current : JVal) : Option JVal := do
  let cl ← current.lengthProp
  let ll ← largest.lengthProp
  pure (if cl.gt ll then current else largest)

def largestOf (polygons : List JVal) : Option JVal :=
  polygons.foldlM largestStep (polygons.getD 0 .undefined)

/-- The body of the `try` block of `calculateCentroid`, following the
source line by line.  `none` is a thrown (and later caught) exception. -/
def centroidTry (coordinates : JVal) : Option (JVal × JVal) := do
  let c0 ← coordinates.index 0
  let c00 ← c0.index 0
  let c000 ← c00.index 0
  if c000.truthy && c000.isNumber then
    -- Single polygon: points = coordinates[0]
    let points ← c0.elems
    let sumLat ← sumAt points 1
    let sumLng ← sumAt points 0
    let len ← c0.lengthProp
    pure (sumLng.div len, sumLat.div len)
  else
    -- MultiPolygon: polygons = coordinates.map(poly => poly[0])
    let polys ← coordinates.elems
    let polygons ← polys.mapM (fun poly => poly.index 0)
    let largestPolygon ← largestOf polygons
    let pts ← largestPolygon.elems
    let sumLat ← sumAt pts 1
    let sumLng ← sumAt pts 0
    let len ← largestPolygon.lengthProp
    pure (sumLng.div len, sumLat.div len)

/-- Function `calculateCentroid` from `GeoGlobeGame.js`: the falsy/empty guard, then
the `try` body with the `catch` returning the origin `[0, 0]`.  The
returned pair is `(longitude, latitude)`. -/
def calculateCentroid (coordinates : JVal) : JVal × JVal :=
  if !coordinates.truthy then (.num 0, .num 0)
  else if (coordinates.lengthProp.getD .undefined).strictEq (.num 0) then (.num 0, .num 0)
  else
    match centroidTry coordinates with
    | some p => p
    | none => (.num 0, .num 0)

/-! ### GeoJSON constructors -/

/-- A `[longitude, latitude]` position. -/
def pointVal (p : ℚ × ℚ) : JVal := .arr [.num p.1, .num p.2]

/-- A linear ring: an array of positions. -/
def ringVal (r : List (ℚ × ℚ)) : JVal := .arr (r.map pointVal)

/-- GeoJSON Polygon coordinates: an array of rings (first ring is the outer
boundary). -/
def polygonCoords (rings : List (List (ℚ × ℚ))) : JVal :=
  .arr (rings.map ringVal)

/-- GeoJSON MultiPolygon coordinates for the spec data model of a multi-polygon
as an ordered collection of rings (each disjoint landmass contributes its
boundary ring; no holes): every ring becomes a one-ring polygon. -/
def multiRingCoords (rings : List (List (ℚ × ℚ))) : JVal :=
  .arr (rings.map (fun r => .arr [ringVal r]))

/-- The ring the MultiPolygon branch selects: the first ring of maximal
length (the fold replaces only on a strictly greater length). -/
def selectLargestRing (rings : List (List (ℚ × ℚ))) : List (ℚ × ℚ) :=
  rings.foldl (fun best r => if best.length < r.length then r else best)
    (rings.headD [])

/-- The unweighted point-average of a ring: mean longitude and mean
latitude of its boundary points. -/
def ringMean (r : List (ℚ × ℚ)) : ℚ × ℚ :=
  ((r.map Prod.fst).sum / r.length, (r.map Prod.snd).sum / r.length)

/-! ## The proximity scorer (`calculateDistance`, `getColorByDistance`)

The scorer works on plain JavaScript numbers.  `JSNum` is an IEEE-style
number: a finite real, `NaN`, or a signed infinity, with the JavaScript
comparison semantics (`NaN` compares false against everything, including
itself). -/

inductive JSNum where
  | fin (x : ℝ)
  | nan
  | inf
  | ninf

/-- JavaScript strict equality `===` on numbers. -/
def JSNum.jsEq : JSNum → JSNum → Prop
  | .fin x, .fin y => x = y
  | .inf, .inf => True
  | .ninf, .ninf => True
  | _, _ => False

/-- JavaScript `<` on numbers. -/
def JSNum.jsLt : JSNum → JSNum → Prop
  | .fin x, .fin y => x < y
  | .fin _, .inf => True
  | .ninf, .fin _ => True
  | .ninf, .inf => True
  | _, _ => False

noncomputable instance (a b : JSNum) : Decidable (a.jsEq b) := Classical.dec _

noncomputable instance (a b : JSNum) : Decidable (a.jsLt b) := Classical.dec _

/-- Constant `EARTH_RADIUS_KM = 6371` from `GeoGlobeGame.js`. -/
def EARTH_RADIUS_KM : ℝ := 6371

/-- JavaScript `Math.atan2(y, x)`: the angle of the point `(x, y)`, in
`(-π, π]`, with `atan2(0, 0) = 0`. -/
noncomputable def atan2 (y x : ℝ) : ℝ :=
  if 0 < x then Real.arctan (y / x)
  else if x < 0 ∧ 0 ≤ y then Real.arctan (y / x) + Real.pi
  else if x < 0 ∧ y < 0 then Real.arctan (y / x) - Real.pi
  else if x = 0 ∧ 0 < y then Real.pi / 2
  else if x = 0 ∧ y < 0 then -(Real.pi / 2)
  else 0

/-- Degrees to radians: the local `toRad` of `calculateDistance`. -/
noncomputable def toRad (deg : ℝ) : ℝ := deg * Real.pi / 180

/-- The local `a` of `calculateDistance`:
`sin(dLat/2)² + cos(toRad lat1) · cos(toRad lat2) · sin(dLon/2)²`. -/
noncomputable def haversineA (lat1 lon1 lat2 lon2 : ℝ) : ℝ :=
  let dLat := toRad (lat2 - lat1)
  let dLon := toRad (lon2 - lon1)
  Real.sin (dLat / 2) * Real.sin (dLat / 2) +
    Real.cos (toRad lat1) * Real.cos (toRad lat2) *
      (Real.sin (dLon / 2) * Real.sin (dLon / 2))

/-- Function `calculateDistance` from `GeoGlobeGame.js` on finite inputs:
the haversine great-circle distance with Earth radius 6371 km
(`c = 2 · atan2(√a, √(1-a))`, result `EARTH_RADIUS_KM · c`).  The
`try`/`catch` of the source is dead code for number arguments (none of the
`Math` calls throws) and is not represented. -/
noncomputable def calculateDistance (lat1 lon1 lat2 lon2 : ℝ) : ℝ :=
  let a := haversineA lat1 lon1 lat2 lon2
  let c := 2 * atan2 (Real.sqrt a) (Real.sqrt (1 - a))
  EARTH_RADIUS_KM * c

/-- Function `calculateDistance` lifted to JavaScript numbers: with any
non-finite argument every `Math.sin`/`Math.cos` evaluates to `NaN`, which
propagates through `a`, `Math.sqrt`, `Math.atan2` and the final product, so
the result is `NaN`; on finite arguments it is the real-valued formula
(whose value is finite, in `[0, 6371·π]`). -/
noncomputable def calculateDistanceJS : JSNum → JSNum → JSNum → JSNum → JSNum
  | .fin lat1, .fin lon1, .fin lat2, .fin lon2 =>
      .fin (calculateDistance lat1 lon1 lat2 lon2)
  | _, _, _, _ => .nan

/-- The five proximity tiers named by the spec. -/
inductive Tier where
  | Correct
  | VeryClose
  | Close
  | Far
  | VeryFar
deriving Repr, DecidableEq

/-- The rgba colour string the source returns for each tier. -/
def Tier.color : Tier → String
  | .Correct => "rgba(52, 211, 153, 0.8)"
  | .VeryClose => "rgba(74, 98, 138, 0.8)"
  | .Close => "rgba(122, 178, 211, 0.8)"
  | .Far => "rgba(185, 229, 232, 0.8)"
  | .VeryFar => "rgba(223, 242, 235, 0.8)"

/-- The tier mapping exactly as worded by the spec: half-open intervals on
the distance, evaluated in order, first match wins.  Stated separately from
the source embedding `getColorByDistance` so the two can be compared. -/
noncomputable def specTier (d : ℝ) : Tier :=
  if d = 0 then .Correct
  else if d < 1000 then .VeryClose
  else if d < 2500 then .Close
  else if d < 5000 then .Far
  else .VeryFar

/-- Function `getColorByDistance` from `GeoGlobeGame.js`: the ordered,
first-match-wins distance → colour mapping. -/
noncomputable def getColorByDistance (distance : JSNum) : String :=
  if distance.jsEq (.fin 0) then "rgba(52, 211, 153, 0.8)"
  else if distance.jsLt (.fin 1000) then "rgba(74, 98, 138, 0.8)"
  else if distance.jsLt (.fin 2500) then "rgba(122, 178, 211, 0.8)"
  else if distance.jsLt (.fin 5000) then "rgba(185, 229, 232, 0.8)"
  else "rgba(223, 242, 235, 0.8)"

/-- Bridge from the geometry pipeline to the scorer: a centroid coordinate
(an exact rational or `NaN`) used as a plain JavaScript number.  `undefined`
and `arr` never occur as centroid coordinates; in JavaScript arithmetic
they would coerce to `NaN`. -/
noncomputable def toJSNum : JVal → JSNum
  | .num q => .fin (q : ℝ)
  | .inf => .inf
  | .ninf => .ninf
  | _ => .nan

/-! ## The daily target resolver -/

/-- The seed of the daily target useEffect:
`seed = (year * 373) + (month * 37) + (day * 7)`. -/
def dailySeed (year month day : ℕ) : ℕ := year * 373 + month * 37 + day * 7

/-! ## Game state and the submission handler (`handleGuess`) -/

/-- A country record as built from the GeoJSON dataset: the display name
and the `geometry.coordinates` value (the only geometry field the engine
reads). -/
structure Country where
  name : String
  coordinates : JVal

/-- The daily target useEffect:
`countryIndex = seed % countryData.length; setTargetCountry(countryData[countryIndex])`.
Returns `none` only on an empty dataset (where the JavaScript indexing
would yield `undefined`). -/
def resolveDailyTarget (countryData : List Country) (year month day : ℕ) :
    Option Country :=
  countryData[dailySeed year month day % countryData.length]?

/-- A guess record (`newGuess` in `handleGuess`): the name and distance
stored under `properties`, the guessed geometry, and the display colour. -/
structure Guess where
  name : String
  distance : JSNum
  coordinates : JVal
  color : String

/-- JavaScript `s.toLowerCase()` (over the code points of the string). -/
def jsToLowerCase (s : String) : String := ⟨s.data.map Char.toLower⟩

/-- JavaScript `s.trim()`: strip whitespace from both ends. -/
def jsTrim (s : String) : String :=
  ⟨((s.data.dropWhile Char.isWhitespace).reverse.dropWhile
      Char.isWhitespace).reverse⟩

/-- The name normalisation used by every comparison in `handleGuess`:
`name.toLowerCase().trim()`. -/
def normName (s : String) : String := jsTrim (jsToLowerCase s)

/-- Constant `MAX_GUESSES = 10`. -/
def MAX_GUESSES : ℕ := 10

/-- The component state read and written by `handleGuess`.  Toast
notifications, statistics, suggestion visibility and localStorage are
presentation state that `handleGuess` only pushes to (never reads back
into the engine) and are not modelled. -/
structure GameState where
  guesses : List Guess
  currentGuess : String
  targetCountry : Option Country
  isLoading : Bool
  gameOver : Bool
  won : Bool
  isPracticeMode : Bool

/-- Function `handleGuess` from `GeoGlobeGame.js`, as a state transformer.
The guard order follows the source: not-ready, empty input, unknown name,
duplicate name, then centroid → distance → tier, append of `newGuess`,
input reset, and the win / out-of-guesses bookkeeping.  The source guards
with `isLoading || !targetCountry`; matching on `targetCountry` first is
equivalent because both guards return the state unchanged. -/
noncomputable def handleGuess (countryData : List Country) (s : GameState) :
    GameState :=
  match s.targetCountry with
  | none => s
  | some targetCountry =>
    if s.isLoading then s
    else if jsTrim s.currentGuess == "" then s
    else
      match countryData.find?
          (fun country => normName country.name == normName s.currentGuess) with
      | none => s
      | some guessedCountry =>
        if s.guesses.any
            (fun guess => normName guess.name == normName guessedCountry.name) then
          { s with currentGuess := "" }
        else
          let gc := calculateCentroid guessedCountry.coordinates
          let tc := calculateCentroid targetCountry.coordinates
          let distance := calculateDistanceJS
            (toJSNum gc.2) (toJSNum gc.1) (toJSNum tc.2) (toJSNum tc.1)
          let newGuess : Guess :=
            { name := guessedCountry.name
              distance := distance
              coordinates := guessedCountry.coordinates
              color := getColorByDistance distance }
          let s1 := { s with
            guesses := s.guesses ++ [newGuess]
            currentGuess := "" }
          if distance.jsEq (.fin 0) then
            { s1 with won := true, gameOver := true }
          else if s.isPracticeMode = false ∧ MAX_GUESSES ≤ s.guesses.length + 1 then
            { s1 with gameOver := true }
          else s1

/-- A submission is valid when the game is ready, the trimmed input is
non-empty, the input names a dataset country (first case-insensitive
match), and that country has not been guessed yet. -/
def validSubmission (countryData : List Country) (s : GameState) : Prop :=
  s.targetCountry.isSome ∧ s.isLoading = false ∧ jsTrim s.currentGuess ≠ "" ∧
  ∃ guessedCountry,
    countryData.find?
        (fun country => normName country.name == normName s.currentGuess) =
      some guessedCountry ∧
    s.guesses.any
        (fun guess => normName guess.name == normName guessedCountry.name) = false

/-! ## Concrete sample data used by the witnesses -/

/-- A small three-country dataset with well-formed triangular geometries. -/
def sampleCountries : List Country :=
  [⟨"Alpha", polygonCoords [[(1, 1), (1, 3), (3, 3)]]⟩,
   ⟨"Beta", multiRingCoords [[(10, 10), (10, 12), (12, 12)]]⟩,
   ⟨"Gamma", polygonCoords [[(5, 5), (5, 7), (7, 7)]]⟩]

/-- A ready game state about to submit the guess Alpha against the target
Beta, with an empty history. -/
def sampleState : GameState :=
  { guesses := []
    currentGuess := "Alpha"
    targetCountry := some ⟨"Beta", multiRingCoords [[(10, 10), (10, 12), (12, 12)]]⟩
    isLoading := false
    gameOver := false
    won := false
    isPracticeMode := false }

/-! # Theorems -/

/-- C1: for every calendar date and every non-empty country dataset, the
daily target resolver returns the country at index
`(year*373 + month*37 + day*7) mod N` of the order-preserving country
list (`N` the dataset size); resolving the same date twice against the
same dataset yields the same country. -/
theorem resolveDailyTarget_spec (countryData : List Country)
    (year month day : ℕ) (h : countryData ≠ []) :
    ∃ hlt : (year * 373 + month * 37 + day * 7) % countryData.length <
        countryData.length,
      resolveDailyTarget countryData year month day =
        some (countryData.get
          ⟨(year * 373 + month * 37 + day * 7) % countryData.length, hlt⟩) ∧
      resolveDailyTarget countryData year month day =
        resolveDailyTarget countryData year month day := by
  have hpos : 0 < countryData.length := List.length_pos.mpr h
  have hlt : (year * 373 + month * 37 + day * 7) % countryData.length <
      countryData.length := Nat.mod_lt _ hpos
  refine ⟨hlt, ?_, rfl⟩
  simp [resolveDailyTarget, dailySeed, List.getElem?_eq_getElem hlt,
    List.get_eq_getElem]

/-- Witness for C1 at the dataset `sampleCountries` and the date
2025-10-12: the seed is 755779 and the index 755779 mod 3 = 1. -/
theorem resolveDailyTarget_spec_witness :
    sampleCountries ≠ [] ∧
    ∃ hlt : (2025 * 373 + 10 * 37 + 12 * 7) % sampleCountries.length <
        sampleCountries.length,
      resolveDailyTarget sampleCountries 2025 10 12 =
        some (sampleCountries.get
          ⟨(2025 * 373 + 10 * 37 + 12 * 7) % sampleCountries.length, hlt⟩) ∧
      resolveDailyTarget sampleCountries 2025 10 12 =
        resolveDailyTarget sampleCountries 2025 10 12 := by
  have h : sampleCountries ≠ [] := by simp [sampleCountries]
  exact ⟨h, resolveDailyTarget_spec sampleCountries 2025 10 12 h⟩

/-- C2 (code bug): on the single-polygon square ring
`[(0,0), (0,2), (2,2), (2,0)]` the spec demands the point-average `(1,1)`,
but the duck-typing test `coordinates[0][0][0] && typeof ... === number`
sees the falsy first longitude `0`, takes the MultiPolygon branch, and the
computation returns `[NaN, NaN]`. -/
theorem calculateCentroid_square_bug :
    calculateCentroid (polygonCoords [[(0, 0), (0, 2), (2, 2), (2, 0)]]) =
      (JVal.nan, JVal.nan) ∧
    (JVal.nan, JVal.nan) ≠ ((JVal.num 1 : JVal), (JVal.num 1 : JVal)) := by
  constructor
  · norm_num [calculateCentroid, centroidTry, polygonCoords, ringVal, pointVal,
      JVal.truthy, JVal.isNumber, JVal.index, JVal.lengthProp, JVal.elems,
      JVal.add, JVal.div, JVal.strictEq, JVal.gt, largestOf, largestStep,
      sumAt, sumStep, List.foldlM, Option.bind, List.mapM, List.mapM.loop]
  · simp

/-- Latitude accumulation: the JavaScript reduce over a ring of positions
computes the exact rational sum of the second coordinates. -/
theorem foldlM_sumStep_snd (r : List (ℚ × ℚ)) (acc : ℚ) :
    List.foldlM (sumStep 1) (JVal.num acc) (r.map pointVal) =
      some (JVal.num (acc + (r.map Prod.snd).sum)) := by
  induction r generalizing acc with
  | nil => simp [List.foldlM]
  | cons p ps ih =>
      have step : sumStep 1 (JVal.num acc) (pointVal p) =
          some (JVal.num (acc + p.2)) := by
        simp [sumStep, pointVal, JVal.index, JVal.add]
      simp [List.foldlM, step, ih]
      ring

/-- Longitude accumulation: the reduce computes the exact rational sum of
the first coordinates. -/
theorem foldlM_sumStep_fst (r : List (ℚ × ℚ)) (acc : ℚ) :
    List.foldlM (sumStep 0) (JVal.num acc) (r.map pointVal) =
      some (JVal.num (acc + (r.map Prod.fst).sum)) := by
  induction r generalizing acc with
  | nil => simp [List.foldlM]
  | cons p ps ih =>
      have step : sumStep 0 (JVal.num acc) (pointVal p) =
          some (JVal.num (acc + p.1)) := by
        simp [sumStep, pointVal, JVal.index, JVal.add]
      simp [List.foldlM, step, ih]
      ring

/-- One step of the largest-polygon reduce on two rings compares their
point counts, keeping the earlier ring on ties. -/
theorem largestStep_ringVal (best r : List (ℚ × ℚ)) :
    largestStep (ringVal best) (ringVal r) =
      some (ringVal (if best.length < r.length then r else best)) := by
  simp only [largestStep, ringVal, JVal.lengthProp, JVal.gt, Option.bind,
    Option.some_bind, List.length_map]
  by_cases h : best.length < r.length
  · simp [h]
  · simp [h]

/-- The largest-polygon reduce over rings selects the first ring of
maximal length. -/
theorem foldlM_largestStep (rings : List (List (ℚ × ℚ)))
    (best : List (ℚ × ℚ)) :
    List.foldlM largestStep (ringVal best) (rings.map ringVal) =
      some (ringVal (rings.foldl
        (fun b r => if b.length < r.length then r else b) best)) := by
  induction rings generalizing best with
  | nil => simp [List.foldlM]
  | cons r rs ih =>
      simp only [List.map_cons, List.foldlM, largestStep_ringVal,
        Option.some_bind, List.foldl_cons]
      exact ih _

/-- Accumulator-generalised form of `mapM_index_zero`. -/
theorem mapM_loop_index_zero (rings : List (List (ℚ × ℚ)))
    (acc : List JVal) :
    List.mapM.loop (fun poly => poly.index 0)
        (rings.map (fun r => JVal.arr [ringVal r])) acc =
      some (acc.reverse ++ rings.map ringVal) := by
  induction rings generalizing acc with
  | nil => simp [List.mapM.loop]
  | cons r rs ih =>
      have hstep : (JVal.arr [ringVal r]).index 0 = some (ringVal r) := by
        simp [JVal.index]
      simp [List.mapM.loop, hstep, ih]

/-- Mapping `poly => poly[0]` over one-ring polygons recovers the rings. -/
theorem mapM_index_zero (rings : List (List (ℚ × ℚ))) :
    (rings.map (fun r => JVal.arr [ringVal r])).mapM
        (fun poly => poly.index 0) = some (rings.map ringVal) := by
  simp [List.mapM, mapM_loop_index_zero]

/-- The fold selecting the largest ring returns its accumulator or a list
element. -/
theorem foldl_select_mem (rings : List (List (ℚ × ℚ)))
    (best : List (ℚ × ℚ)) :
    rings.foldl (fun b r => if b.length < r.length then r else b) best ∈
      best :: rings := by
  induction rings generalizing best with
  | nil => simp
  | cons r rs ih =>
      simp only [List.foldl_cons]
      rcases List.mem_cons.mp (ih (if best.length < r.length then r else best))
        with h | h
      · rw [h]
        by_cases hc : best.length < r.length <;> simp [hc]
      · simp [h]

/-- The selected largest ring is one of the rings. -/
theorem selectLargestRing_mem (rings : List (List (ℚ × ℚ)))
    (h : rings ≠ []) : selectLargestRing rings ∈ rings := by
  match rings with
  | r0 :: rs =>
      have := foldl_select_mem (r0 :: rs) r0
      rcases List.mem_cons.mp this with h1 | h1
      · rw [selectLargestRing]
        simp only [List.headD_cons]
        rw [h1]
        exact List.mem_cons_self _ _
      · rw [selectLargestRing]
        simpa using h1

/-- The latitude reduce over a ring of positions yields the exact sum. -/
theorem sumAt_snd (r : List (ℚ × ℚ)) :
    sumAt (r.map pointVal) 1 = some (.num ((r.map Prod.snd).sum)) := by
  simpa [sumAt] using foldlM_sumStep_snd r 0

/-- The longitude reduce over a ring of positions yields the exact sum. -/
theorem sumAt_fst (r : List (ℚ × ℚ)) :
    sumAt (r.map pointVal) 0 = some (.num ((r.map Prod.fst).sum)) := by
  simpa [sumAt] using foldlM_sumStep_fst r 0

/-- C3: on a multi-polygon (a non-empty collection of rings, each ring
non-empty), `calculateCentroid` returns the unweighted point-average of
the ring with the most boundary points (the first such ring on ties); no
other ring influences the result. -/
theorem calculateCentroid_multiPolygon (rings : List (List (ℚ × ℚ)))
    (h1 : rings ≠ []) (h2 : ∀ r ∈ rings, r ≠ []) :
    calculateCentroid (multiRingCoords rings) =
      (.num (ringMean (selectLargestRing rings)).1,
       .num (ringMean (selectLargestRing rings)).2) := by
  obtain ⟨r0, rs, rfl⟩ : ∃ r0 rs, rings = r0 :: rs := by
    cases rings with
    | nil => exact absurd rfl h1
    | cons a l => exact ⟨a, l, rfl⟩
  obtain ⟨p0, r0', rfl⟩ : ∃ p t, r0 = p :: t := by
    cases r0 with
    | nil => exact absurd rfl (h2 [] (by simp))
    | cons p t => exact ⟨p, t, rfl⟩
  have hRmem : selectLargestRing ((p0 :: r0') :: rs) ∈ (p0 :: r0') :: rs :=
    selectLargestRing_mem _ (by simp)
  have hRne : selectLargestRing ((p0 :: r0') :: rs) ≠ [] := h2 _ hRmem
  have hlen0 : (selectLargestRing ((p0 :: r0') :: rs)).length ≠ 0 :=
    fun h => hRne (List.length_eq_zero.mp h)
  have hRlen : ((selectLargestRing ((p0 :: r0') :: rs)).length : ℚ) ≠ 0 :=
    Nat.cast_ne_zero.mpr hlen0
  have hidx1 : (multiRingCoords ((p0 :: r0') :: rs)).index 0 =
      some (JVal.arr [ringVal (p0 :: r0')]) := by
    simp [multiRingCoords, JVal.index]
  have hidx2 : (JVal.arr [ringVal (p0 :: r0')]).index 0 =
      some (ringVal (p0 :: r0')) := by
    simp [JVal.index]
  have hidx3 : (ringVal (p0 :: r0')).index 0 = some (pointVal p0) := by
    simp [ringVal, JVal.index]
  have hcond : ((pointVal p0).truthy && (pointVal p0).isNumber) = false := by
    simp [pointVal, JVal.truthy, JVal.isNumber]
  have helems : (multiRingCoords ((p0 :: r0') :: rs)).elems =
      some (((p0 :: r0') :: rs).map (fun r => JVal.arr [ringVal r])) := by
    simp [multiRingCoords, JVal.elems]
  have hlargest : largestOf (((p0 :: r0') :: rs).map ringVal) =
      some (ringVal (selectLargestRing ((p0 :: r0') :: rs))) := by
    have hinit : ((((p0 :: r0') :: rs).map ringVal).getD 0 .undefined) =
        ringVal (p0 :: r0') := by simp
    rw [largestOf, hinit, foldlM_largestStep]
    rfl
  have hRelems : (ringVal (selectLargestRing ((p0 :: r0') :: rs))).elems =
      some ((selectLargestRing ((p0 :: r0') :: rs)).map pointVal) := by
    simp [ringVal, JVal.elems]
  have hRlenProp : (ringVal (selectLargestRing ((p0 :: r0') :: rs))).lengthProp =
      some (.num ((selectLargestRing ((p0 :: r0') :: rs)).length : ℚ)) := by
    simp [ringVal, JVal.lengthProp]
  have hguard1 : (multiRingCoords ((p0 :: r0') :: rs)).truthy = true := by
    simp [multiRingCoords, JVal.truthy]
  have hguard2 : (((multiRingCoords ((p0 :: r0') :: rs)).lengthProp.getD
      .undefined)).strictEq (.num 0) = false := by
    simp [multiRingCoords, JVal.lengthProp, JVal.strictEq]
    positivity
  unfold calculateCentroid
  rw [hguard2, hguard1]
  simp only [Bool.not_true, Bool.false_eq_true, if_false]
  unfold centroidTry
  rw [hidx1]
  simp only [Option.pure_def, Option.bind_eq_bind, Option.some_bind]
  rw [hidx2]
  simp only [Option.pure_def, Option.bind_eq_bind, Option.some_bind]
  rw [hidx3]
  simp only [Option.pure_def, Option.bind_eq_bind, Option.some_bind, hcond, Bool.false_eq_true, if_false]
  rw [helems]
  simp only [Option.pure_def, Option.bind_eq_bind, Option.some_bind]
  rw [show (((p0 :: r0') :: rs).map (fun r => JVal.arr [ringVal r])).mapM
        (fun poly => poly.index 0) = some (((p0 :: r0') :: rs).map ringVal)
      from mapM_index_zero _]
  simp only [Option.pure_def, Option.bind_eq_bind, Option.some_bind]
  rw [hlargest]
  simp only [Option.pure_def, Option.bind_eq_bind, Option.some_bind]
  rw [hRelems]
  simp only [Option.pure_def, Option.bind_eq_bind, Option.some_bind]
  rw [sumAt_snd, sumAt_fst]
  simp only [Option.pure_def, Option.bind_eq_bind, Option.some_bind]
  rw [hRlenProp]
  simp only [Option.pure_def, Option.bind_eq_bind, Option.some_bind, JVal.div, hRlen, if_false, ringMean]

/-- Witness for C3: a multi-polygon with a 3-point ring and a 5-point ring
selects the 5-point ring and averages it alone. -/
theorem calculateCentroid_multiPolygon_witness :
    ([[(0, 0), (0, 3), (3, 0)],
      [(10, 10), (10, 14), (14, 14), (14, 10), (10, 10)]] :
        List (List (ℚ × ℚ))) ≠ [] ∧
    (∀ r ∈ ([[(0, 0), (0, 3), (3, 0)],
        [(10, 10), (10, 14), (14, 14), (14, 10), (10, 10)]] :
          List (List (ℚ × ℚ))), r ≠ []) ∧
    selectLargestRing
        [[(0, 0), (0, 3), (3, 0)],
         [(10, 10), (10, 14), (14, 14), (14, 10), (10, 10)]] =
      [(10, 10), (10, 14), (14, 14), (14, 10), (10, 10)] ∧
    calculateCentroid (multiRingCoords
        [[(0, 0), (0, 3), (3, 0)],
         [(10, 10), (10, 14), (14, 14), (14, 10), (10, 10)]]) =
      (.num (ringMean (selectLargestRing
          [[(0, 0), (0, 3), (3, 0)],
           [(10, 10), (10, 14), (14, 14), (14, 10), (10, 10)]])).1,
       .num (ringMean (selectLargestRing
          [[(0, 0), (0, 3), (3, 0)],
           [(10, 10), (10, 14), (14, 14), (14, 10), (10, 10)]])).2) := by
  have h1 : ([[(0, 0), (0, 3), (3, 0)],
      [(10, 10), (10, 14), (14, 14), (14, 10), (10, 10)]] :
        List (List (ℚ × ℚ))) ≠ [] := by simp
  have h2 : ∀ r ∈ ([[(0, 0), (0, 3), (3, 0)],
      [(10, 10), (10, 14), (14, 14), (14, 10), (10, 10)]] :
        List (List (ℚ × ℚ))), r ≠ [] := by
    intro r hr
    simp only [List.mem_cons, List.not_mem_nil, or_false] at hr
    rcases hr with rfl | rfl <;> simp
  refine ⟨h1, h2, by simp [selectLargestRing], ?_⟩
  exact calculateCentroid_multiPolygon _ h1 h2

/-- C4: the tier mapping of the source agrees with the ordered half-open
interval mapping of the spec on every finite distance; in particular a
distance of exactly 1000 km is Close (not VeryClose) and exactly 2500 km
is Far. -/
theorem getColorByDistance_tiers (d : ℝ) :
    getColorByDistance (.fin d) = Tier.color (specTier d) ∧
    specTier 1000 = Tier.Close ∧ specTier 2500 = Tier.Far := by
  refine ⟨?_, by norm_num [specTier], by norm_num [specTier]⟩
  by_cases h0 : d = 0
  · simp [getColorByDistance, specTier, JSNum.jsEq, JSNum.jsLt, h0, Tier.color]
  · by_cases h1 : d < 1000
    · simp [getColorByDistance, specTier, JSNum.jsEq, JSNum.jsLt, h0, h1,
        Tier.color]
    · by_cases h2 : d < 2500
      · simp [getColorByDistance, specTier, JSNum.jsEq, JSNum.jsLt, h0, h1, h2,
          Tier.color]
      · by_cases h3 : d < 5000
        · simp [getColorByDistance, specTier, JSNum.jsEq, JSNum.jsLt,
            h0, h1, h2, h3, Tier.color]
        · simp [getColorByDistance, specTier, JSNum.jsEq, JSNum.jsLt,
            h0, h1, h2, h3, Tier.color]

/-- C5: scoring a point against itself gives distance exactly 0 and the
Correct tier, for every coordinate pair (either hemisphere). -/
theorem score_identical (lat lon : ℝ) :
    calculateDistance lat lon lat lon = 0 ∧
    getColorByDistance (.fin (calculateDistance lat lon lat lon)) =
      Tier.color Tier.Correct := by
  have hA : haversineA lat lon lat lon = 0 := by
    unfold haversineA toRad
    norm_num
  have hd : calculateDistance lat lon lat lon = 0 := by
    unfold calculateDistance
    rw [hA]
    norm_num [atan2, Real.arctan_zero]
  refine ⟨hd, ?_⟩
  rw [hd]
  simp [getColorByDistance, JSNum.jsEq, Tier.color]

/-- C6: the scorer is symmetric in its two coordinate pairs, in both the
distance and the resulting tier. -/
theorem score_symmetric (lat1 lon1 lat2 lon2 : ℝ) :
    calculateDistance lat1 lon1 lat2 lon2 =
      calculateDistance lat2 lon2 lat1 lon1 ∧
    getColorByDistance (.fin (calculateDistance lat1 lon1 lat2 lon2)) =
      getColorByDistance (.fin (calculateDistance lat2 lon2 lat1 lon1)) := by
  have hA : haversineA lat1 lon1 lat2 lon2 = haversineA lat2 lon2 lat1 lon1 := by
    unfold haversineA toRad
    dsimp only
    have hs1 : Real.sin ((lat1 - lat2) * Real.pi / 180 / 2) =
        -Real.sin ((lat2 - lat1) * Real.pi / 180 / 2) := by
      rw [show (lat1 - lat2) * Real.pi / 180 / 2 =
          -((lat2 - lat1) * Real.pi / 180 / 2) by ring, Real.sin_neg]
    have hs2 : Real.sin ((lon1 - lon2) * Real.pi / 180 / 2) =
        -Real.sin ((lon2 - lon1) * Real.pi / 180 / 2) := by
      rw [show (lon1 - lon2) * Real.pi / 180 / 2 =
          -((lon2 - lon1) * Real.pi / 180 / 2) by ring, Real.sin_neg]
    rw [hs1, hs2]
    ring
  have hd : calculateDistance lat1 lon1 lat2 lon2 =
      calculateDistance lat2 lon2 lat1 lon1 := by
    unfold calculateDistance
    rw [hA]
  exact ⟨hd, by rw [hd]⟩

/-- C7 counterexample: the malformed multi-polygon whose only ring is
empty completes without a fault and returns `[NaN, NaN]`, not the sentinel
origin the claim promises for every malformed geometry. -/
theorem calculateCentroid_malformed_nan :
    calculateCentroid (multiRingCoords [[]]) = (JVal.nan, JVal.nan) ∧
    calculateCentroid (multiRingCoords [[]]) ≠ (JVal.num 0, JVal.num 0) := by
  have heval : calculateCentroid (multiRingCoords [[]]) =
      (JVal.nan, JVal.nan) := by
    norm_num [calculateCentroid, centroidTry, multiRingCoords, ringVal,
      JVal.truthy, JVal.isNumber, JVal.index, JVal.lengthProp, JVal.elems,
      JVal.add, JVal.div, JVal.strictEq, JVal.gt, largestOf, largestStep,
      sumAt, sumStep, List.foldlM, Option.bind, List.mapM, List.mapM.loop]
  refine ⟨heval, ?_⟩
  rw [heval]
  simp

/-- C7 (amended): empty or missing geometry yields the sentinel origin,
and every thrown computation fault is absorbed by the `catch` into the
sentinel origin; `calculateCentroid` is total.  (Some malformed geometries
complete without a fault and deliver `NaN` coordinates instead — see the
counterexample.) -/
theorem calculateCentroid_sentinel :
    calculateCentroid JVal.undefined = (JVal.num 0, JVal.num 0) ∧
    calculateCentroid (JVal.arr []) = (JVal.num 0, JVal.num 0) ∧
    ∀ coordinates, centroidTry coordinates = none →
      calculateCentroid coordinates = (JVal.num 0, JVal.num 0) := by
  refine ⟨by norm_num [calculateCentroid, JVal.truthy],
    by norm_num [calculateCentroid, JVal.truthy, JVal.lengthProp,
      JVal.strictEq], ?_⟩
  intro c hc
  unfold calculateCentroid
  rw [hc]
  split_ifs <;> rfl

/-- Witness for C7 (amended): a polygon whose only ring is empty throws
(indexing `undefined`) and the catch delivers the origin. -/
theorem calculateCentroid_sentinel_witness :
    centroidTry (polygonCoords [[]]) = none ∧
    calculateCentroid (polygonCoords [[]]) = (JVal.num 0, JVal.num 0) := by
  have h : centroidTry (polygonCoords [[]]) = none := by
    norm_num [centroidTry, polygonCoords, ringVal, JVal.index, Option.bind]
  exact ⟨h, calculateCentroid_sentinel.2.2 _ h⟩

/-- C8 counterexample: negative infinity is a non-finite distance input,
yet the tier mapping returns the VeryClose colour (because
`-Infinity < 1000` holds), not VeryFar. -/
theorem getColorByDistance_negInf :
    getColorByDistance JSNum.ninf = Tier.color Tier.VeryClose ∧
    Tier.color Tier.VeryClose ≠ Tier.color Tier.VeryFar := by
  refine ⟨?_, by decide⟩
  simp [getColorByDistance, JSNum.jsEq, JSNum.jsLt, Tier.color]

/-- C8 (amended): on the non-finite distances the engine can actually
produce (`NaN`, and `Infinity` from the defensive catch), the tier mapping
yields VeryFar and never Correct; in the embedding every engine function
is total by construction.  (`-Infinity`, which no engine path produces,
would map to VeryClose — see the counterexample.) -/
theorem getColorByDistance_nonfinite :
    getColorByDistance JSNum.nan = Tier.color Tier.VeryFar ∧
    getColorByDistance JSNum.inf = Tier.color Tier.VeryFar ∧
    Tier.color Tier.VeryFar ≠ Tier.color Tier.Correct := by
  refine ⟨?_, ?_, by decide⟩ <;>
    simp [getColorByDistance, JSNum.jsEq, JSNum.jsLt, Tier.color]

/-- C9: the guess history is append-only — a valid submission appends
exactly one new record at the end (previous records untouched), and any
other submission (not ready, empty, unknown or duplicate name) leaves the
history unchanged. -/
theorem handleGuess_append (countryData : List Country) (s : GameState) :
    (validSubmission countryData s →
      ∃ g, (handleGuess countryData s).guesses = s.guesses ++ [g]) ∧
    (¬ validSubmission countryData s →
      (handleGuess countryData s).guesses = s.guesses) := by
  cases htc : s.targetCountry with
  | none =>
      have hres : (handleGuess countryData s).guesses = s.guesses := by
        unfold handleGuess
        rw [htc]
      exact ⟨fun hv => absurd hv.1 (by simp [htc]), fun _ => hres⟩
  | some target =>
      by_cases hload : s.isLoading = true
      · have hres : (handleGuess countryData s).guesses = s.guesses := by
          unfold handleGuess
          rw [htc]
          simp [hload]
        exact ⟨fun hv => absurd hv.2.1 (by simp [hload]), fun _ => hres⟩
      · simp only [Bool.not_eq_true] at hload
        by_cases hempty : (jsTrim s.currentGuess == "") = true
        · have hres : (handleGuess countryData s).guesses = s.guesses := by
            unfold handleGuess
            rw [htc]
            simp [hload, hempty]
          refine ⟨fun hv => absurd (by simpa using hempty) hv.2.2.1,
            fun _ => hres⟩
        · simp only [Bool.not_eq_true] at hempty
          cases hfind : countryData.find?
              (fun country => normName country.name == normName s.currentGuess) with
          | none =>
              have hres : (handleGuess countryData s).guesses = s.guesses := by
                unfold handleGuess
                rw [htc, hfind]
                simp [hload, hempty]
              refine ⟨fun hv => ?_, fun _ => hres⟩
              obtain ⟨gc, hfg, -⟩ := hv.2.2.2
              rw [hfind] at hfg
              cases hfg
          | some gc =>
              by_cases hdup : (s.guesses.any
                  (fun guess => normName guess.name == normName gc.name)) = true
              · have hres : (handleGuess countryData s).guesses = s.guesses := by
                  unfold handleGuess
                  rw [htc, hfind]
                  simp [hload, hempty, hdup]
                refine ⟨fun hv => ?_, fun _ => hres⟩
                obtain ⟨gc2, hfg, hany⟩ := hv.2.2.2
                rw [hfind] at hfg
                cases hfg
                rw [hany] at hdup
                cases hdup
              · simp only [Bool.not_eq_true] at hdup
                have hval : validSubmission countryData s := by
                  refine ⟨by simp [htc], hload, ?_, gc, hfind, hdup⟩
                  simpa using hempty
                refine ⟨fun _ => ?_, fun hnv => absurd hval hnv⟩
                unfold handleGuess
                rw [htc, hfind]
                simp only [hload, hempty, hdup, Bool.false_eq_true, if_false]
                split_ifs <;> exact ⟨_, rfl⟩

/-- Witness for C9: submitting Alpha in the ready sample state is a valid
submission and appends exactly one record. -/
theorem handleGuess_append_witness :
    validSubmission sampleCountries sampleState ∧
    ∃ g, (handleGuess sampleCountries sampleState).guesses =
      sampleState.guesses ++ [g] := by
  have hval : validSubmission sampleCountries sampleState := by
    refine ⟨by simp [sampleState], rfl, by decide, ?_⟩
    exact ⟨⟨"Alpha", polygonCoords [[(1, 1), (1, 3), (3, 3)]]⟩, by rfl, rfl⟩
  exact ⟨hval, (handleGuess_append sampleCountries sampleState).1 hval⟩

/-- C10 (implicit): the guess history never acquires two records whose
names agree case-insensitively after trimming — `handleGuess` preserves
pairwise distinctness of normalised names (a duplicate is rejected before
any record is created). -/
theorem handleGuess_names_unique (countryData : List Country) (s : GameState)
    (h : s.guesses.Pairwise
      (fun g1 g2 => normName g1.name ≠ normName g2.name)) :
    ((handleGuess countryData s).guesses).Pairwise
      (fun g1 g2 => normName g1.name ≠ normName g2.name) := by
  cases htc : s.targetCountry with
  | none =>
      unfold handleGuess
      rw [htc]
      exact h
  | some target =>
      by_cases hload : s.isLoading = true
      · unfold handleGuess
        rw [htc]
        simpa [hload] using h
      · simp only [Bool.not_eq_true] at hload
        by_cases hempty : (jsTrim s.currentGuess == "") = true
        · unfold handleGuess
          rw [htc]
          simpa [hload, hempty] using h
        · simp only [Bool.not_eq_true] at hempty
          cases hfind : countryData.find?
              (fun country => normName country.name == normName s.currentGuess) with
          | none =>
              unfold handleGuess
              rw [htc, hfind]
              simpa [hload, hempty] using h
          | some gc =>
              by_cases hdup : (s.guesses.any
                  (fun guess => normName guess.name == normName gc.name)) = true
              · unfold handleGuess
                rw [htc, hfind]
                simpa [hload, hempty, hdup] using h
              · simp only [Bool.not_eq_true] at hdup
                have hnames : ∀ g ∈ s.guesses,
                    normName g.name ≠ normName gc.name := by
                  intro g hg
                  have hb := List.any_eq_false.mp hdup g hg
                  simpa using hb
                unfold handleGuess
                rw [htc, hfind]
                simp only [hload, hempty, hdup, Bool.false_eq_true, if_false]
                split_ifs <;>
                · refine List.pairwise_append.mpr
                    ⟨h, List.pairwise_singleton _ _, ?_⟩
                  intro a ha b hb
                  simp only [List.mem_singleton] at hb
                  subst hb
                  simpa using hnames a ha

/-- Witness for C10: the empty sample history is pairwise-distinct and
stays pairwise-distinct after the submission. -/
theorem handleGuess_names_unique_witness :
    (sampleState.guesses.Pairwise
      (fun g1 g2 => normName g1.name ≠ normName g2.name)) ∧
    ((handleGuess sampleCountries sampleState).guesses).Pairwise
      (fun g1 g2 => normName g1.name ≠ normName g2.name) := by
  have h : sampleState.guesses.Pairwise
      (fun g1 g2 => normName g1.name ≠ normName g2.name) := by
    simp [sampleState]
  exact ⟨h, handleGuess_names_unique sampleCountries sampleState h⟩

/-- Supporting fact for C2: on a single polygon whose first vertex has a
nonzero first coordinate (so the truthiness test succeeds), the source
does return the unweighted point-average of the outer ring, as the spec
states.  The divergence of C2 is therefore exactly the falsy-zero
misclassification. -/
theorem calculateCentroid_polygon (p0 : ℚ × ℚ) (r0 : List (ℚ × ℚ))
    (rest : List (List (ℚ × ℚ))) (h0 : p0.1 ≠ 0) :
    calculateCentroid (polygonCoords ((p0 :: r0) :: rest)) =
      (.num (ringMean (p0 :: r0)).1, .num (ringMean (p0 :: r0)).2) := by
  have hlen : ((p0 :: r0).length : ℚ) ≠ 0 := by
    exact_mod_cast Nat.cast_ne_zero.mpr (List.cons_ne_nil p0 r0 ∘
      List.length_eq_zero.mp)
  have hidx1 : (polygonCoords ((p0 :: r0) :: rest)).index 0 =
      some (ringVal (p0 :: r0)) := by
    simp [polygonCoords, JVal.index]
  have hidx2 : (ringVal (p0 :: r0)).index 0 = some (pointVal p0) := by
    simp [ringVal, JVal.index]
  have hidx3 : (pointVal p0).index 0 = some (.num p0.1) := by
    simp [pointVal, JVal.index]
  have hcond : ((JVal.num p0.1).truthy && (JVal.num p0.1).isNumber) = true := by
    simp [JVal.truthy, JVal.isNumber, h0]
  have helems : (ringVal (p0 :: r0)).elems =
      some ((p0 :: r0).map pointVal) := by
    simp [ringVal, JVal.elems]
  have hlenProp : (ringVal (p0 :: r0)).lengthProp =
      some (.num ((p0 :: r0).length : ℚ)) := by
    simp [ringVal, JVal.lengthProp]
  have hguard1 : (polygonCoords ((p0 :: r0) :: rest)).truthy = true := by
    simp [polygonCoords, JVal.truthy]
  have hguard2 : (((polygonCoords ((p0 :: r0) :: rest)).lengthProp.getD
      .undefined)).strictEq (.num 0) = false := by
    simp [polygonCoords, JVal.lengthProp, JVal.strictEq]
    positivity
  unfold calculateCentroid
  rw [hguard2, hguard1]
  simp only [Bool.not_true, Bool.false_eq_true, if_false]
  unfold centroidTry
  rw [hidx1]
  simp only [Option.pure_def, Option.bind_eq_bind, Option.some_bind]
  rw [hidx2]
  simp only [Option.pure_def, Option.bind_eq_bind, Option.some_bind]
  rw [hidx3]
  simp only [Option.pure_def, Option.bind_eq_bind, Option.some_bind, hcond,
    if_true]
  rw [helems]
  simp only [Option.pure_def, Option.bind_eq_bind, Option.some_bind]
  rw [sumAt_snd, sumAt_fst]
  simp only [Option.pure_def, Option.bind_eq_bind, Option.some_bind]
  rw [hlenProp]
  simp only [Option.pure_def, Option.bind_eq_bind, Option.some_bind, JVal.div,
    hlen, if_false, ringMean]
